import Mathlib

/-!
Shallow embedding of the `quotes` Django app (models.py, serializers.py,
views.py) for checking the natural-language specification against the code.

Conventions of the embedding:
- Database rows become Lean structures; the database is a `DBState` holding
  the three tables as lists in storage order (the order the storage engine
  returns rows when no `order_by` is applied).
- Timestamps (`date_created`, `created_at`) are modelled as `Nat`.
- An uploaded image file is modelled by the `String` path stored for it.
- `request.POST.get(k)` is an `Option String` argument (`none` when the key
  is absent); `request.FILES.get(k)` likewise.
- Python string truthiness (`if text and author:`) is `truthy`.
- Python `int(s)` on a string is modelled by `pythonInt?` (optional
  surrounding whitespace, optional sign, decimal digits; failure
  corresponds to `ValueError`; underscored or non-ASCII digit literals are
  not modelled).
- Django's `messages.success` / `messages.error` become a `Notice` list.
- A Django view's outcome (redirect, template render, HTTP 404 from
  `get_object_or_404`, or an uncaught exception propagating out of the
  handler) is an `HttpResult`.
- The outbound Wikipedia call is modelled by a `WikiResponse` argument: the
  oracle for what `requests.get` + `response.json()` would produce.
  `WikiResponse.failure d` is a raised `requests.RequestException` with text
  `d` (this includes non-2xx statuses, because `response.raise_for_status()`
  raises an `HTTPError`, a subclass of `RequestException`, which the single
  `except requests.RequestException` clause catches).
-/

namespace ReviewQuotes

/-! ## Data model (src/quotes/models.py) -/

/-- models.py `Quote`: `text` (TextField), `author` (CharField), `era`
(CharField, blank, null), `author_bio_summary` (TextField, blank, null),
`date_created` (auto_now_add). Nullable columns are `Option String`. -/
structure Quote where
  id : Nat
  text : String
  author : String
  era : Option String
  author_bio_summary : Option String
  date_created : Nat
deriving Repr, DecidableEq

/-- models.py `Book`: `title`, `author` (CharFields), `cover_image`
(ImageField, blank, null) modelled by the stored path. -/
structure Book where
  id : Nat
  title : String
  author : String
  cover_image : Option String
deriving Repr, DecidableEq

/-- models.py `Review`: `book` (ForeignKey to Book, on_delete=CASCADE),
`reviewer_name` (CharField), `rating` (IntegerField, default 5), `body`
(TextField), `created_at` (auto_now_add). `book` is the referenced Book id. -/
structure Review where
  id : Nat
  book : Nat
  reviewer_name : String
  rating : Int
  body : String
  created_at : Nat
deriving Repr, DecidableEq

/-- The three tables, each in storage order. -/
structure DBState where
  quotes : List Quote
  books : List Book
  reviews : List Review
deriving Repr, DecidableEq

/-- `get_object_or_404(Quote, pk=pk)` lookup. -/
def findQuote (s : DBState) (pk : Nat) : Option Quote :=
  s.quotes.find? (fun q => q.id == pk)

/-- `get_object_or_404(Book, pk=pk)` lookup. -/
def findBook (s : DBState) (pk : Nat) : Option Book :=
  s.books.find? (fun b => b.id == pk)

/-- `get_object_or_404(Review, pk=pk)` lookup. -/
def findReview (s : DBState) (pk : Nat) : Option Review :=
  s.reviews.find? (fun r => r.id == pk)

/-- Persist a modified quote row (`quote.save()` on an existing row). -/
def updateQuoteRow (s : DBState) (pk : Nat) (q2 : Quote) : DBState :=
  { s with quotes := s.quotes.map (fun q => if q.id == pk then q2 else q) }

/-- Persist a modified book row. -/
def updateBookRow (s : DBState) (pk : Nat) (b2 : Book) : DBState :=
  { s with books := s.books.map (fun b => if b.id == pk then b2 else b) }

/-- Persist a modified review row. -/
def updateReviewRow (s : DBState) (pk : Nat) (r2 : Review) : DBState :=
  { s with reviews := s.reviews.map (fun r => if r.id == pk then r2 else r) }

/-! ## Request/response plumbing -/

/-- A flash message recorded via `django.contrib.messages`. -/
inductive Notice where
  | success (msg : String)
  | error (msg : String)
deriving Repr, DecidableEq

/-- Is a notice an error notice? -/
def Notice.isError : Notice → Bool
  | .success _ => false
  | .error _ => true

/-- How a template view terminates: an HTTP redirect to a named route, a
template render, the 404 raised by `get_object_or_404`, or an exception that
escapes the handler (named by its Python class). -/
inductive HttpResult where
  | redirect (route : String)
  | render (template : String)
  | http404
  | uncaught (exc : String)
deriving Repr, DecidableEq

/-- A template view's full outcome: resulting database state, notices
recorded, and how the request terminates. -/
structure PageResponse where
  state : DBState
  notices : List Notice
  result : HttpResult
deriving Repr, DecidableEq

/-- Decimal digit run to a number: the digit-parsing core of Python
`int(s)`. -/
def digitsToNat? : List Char → Option Nat
  | [] => none
  | cs =>
    if cs.all (fun c => c.isDigit) then
      some (cs.foldl (fun n c => n * 10 + (c.toNat - '0'.toNat)) 0)
    else none

/-- Python `int(s)` applied to a string: strips surrounding whitespace,
allows one sign, then requires a non-empty run of decimal digits; `none`
corresponds to a raised `ValueError`. -/
def pythonInt? (s : String) : Option Int :=
  let cs := ((s.data.dropWhile (fun c => c.isWhitespace)).reverse.dropWhile
    (fun c => c.isWhitespace)).reverse
  match cs with
  | '-' :: ds => (digitsToNat? ds).map (fun n => -(n : Int))
  | '+' :: ds => (digitsToNat? ds).map (fun n => (n : Int))
  | ds => (digitsToNat? ds).map (fun n => (n : Int))

/-- Python string truthiness of an optional form value: `None` and the empty
string are falsy. -/
def truthy : Option String → Bool
  | none => false
  | some s => !(s == "")

/-! ## Wikipedia response model (views.py bio fetch) -/

/-- One value of the `data['query']['pages']` dict: whether the `'missing'`
key is present, the `'pageid'` value if present, the `'extract'` value if
present. -/
structure WikiPage where
  missing : Bool
  pageid : Option Int
  extract : Option String
deriving Repr, DecidableEq

/-- The parsed JSON body: whether `'query'` is a key of the body, whether
`'pages'` is a key of `data['query']`, and the values of the pages dict in
iteration order. -/
structure WikiJson where
  hasQuery : Bool
  hasPages : Bool
  pages : List WikiPage
deriving Repr, DecidableEq

/-- Outcome of `requests.get(...)` + `raise_for_status()` + `.json()`:
either a raised `requests.RequestException` carrying its message text
(transport error, timeout, or non-2xx status via `HTTPError`), or a parsed
JSON body. -/
inductive WikiResponse where
  | failure (detail : String)
  | success (data : WikiJson)
deriving Repr, DecidableEq

/-- `page.get('pageid', -1)`. -/
def pageidOrDefault (p : WikiPage) : Int := p.pageid.getD (-1)

/-- `page.get('extract', 'No summary found.')`. -/
def extractOrDefault (p : WikiPage) : String := p.extract.getD "No summary found."

/-- The classification of a Wikipedia response produced by the shared check
sequence of the two bio-fetch views. -/
inductive BioOutcome where
  | transportError (detail : String)
  | noArticle
  | noSummary
  | ok (summary : String)
deriving Repr, DecidableEq

/-- The branch taken by both bio-fetch views. The two views
(`QuoteViewSet.fetch_author_bio` and `quote_fetch_bio`) run the identical
sequence of checks, differing only in how each branch is rendered:
1. `except requests.RequestException` → `transportError`;
2. `'query' not in data or 'pages' not in data['query'] or not
   data['query']['pages']` → `noArticle`;
3. on `page = next(iter(data['query']['pages'].values()))`, `'missing' in
   page or page.get('pageid', -1) == -1` → `noArticle`;
4. `summary = page.get('extract', 'No summary found.')`; `not summary or
   summary == 'No summary found.'` → `noSummary`;
5. otherwise → `ok summary`. -/
def classify_bio_response : WikiResponse → BioOutcome
  | .failure e => .transportError e
  | .success ⟨true, true, page :: _⟩ =>
    if page.missing || pageidOrDefault page == -1 then
      .noArticle
    else
      if extractOrDefault page == "" || extractOrDefault page == "No summary found." then
        .noSummary
      else
        .ok (extractOrDefault page)
  | .success _ => .noArticle

/-! ## API bio-fetch action (views.py QuoteViewSet.fetch_author_bio) -/

/-- A DRF `Response` of the bio-fetch action: either status 200 with a
`message` and a `summary` key, or an error status with an `error` key. -/
inductive ApiBioResponse where
  | ok (message summary : String)
  | err (status : Nat) (error : String)
deriving Repr, DecidableEq

/-- `QuoteViewSet.fetch_author_bio`, given the quote row it acts on and the
Wikipedia call outcome. Returns the HTTP response and the resulting quote
row (`quote.save()` persists the new `author_bio_summary` only on the
success branch). Status codes are the literal 503 / 404 / 200 of the view. -/
def fetch_author_bio (quote : Quote) (resp : WikiResponse) :
    ApiBioResponse × Quote :=
  match classify_bio_response resp with
  | .transportError e =>
    (.err 503 ("External API error while fetching bio: " ++ e), quote)
  | .noArticle =>
    (.err 404 ("No Wikipedia article found for " ++ quote.author ++ "."), quote)
  | .noSummary =>
    (.err 404 ("Wikipedia article found but no summary available for "
        ++ quote.author ++ "."), quote)
  | .ok summary =>
    (.ok ("Successfully fetched and saved bio for " ++ quote.author ++ ".") summary,
     { quote with author_bio_summary := some summary })

/-! ## Template bio-fetch view (views.py quote_fetch_bio) -/

/-- Outcome of the template view `quote_fetch_bio`: the resulting quote row,
the notices recorded, the route redirected to (always `quote_detail` of the
same pk), and whether the outbound HTTP request was issued at all. -/
structure BioPageResult where
  quote : Quote
  notices : List Notice
  redirect_route : String
  http_called : Bool
deriving Repr, DecidableEq

/-- `quote_fetch_bio(request, pk)` after `get_object_or_404` succeeded,
given the request method, the quote row and the Wikipedia call oracle (the
oracle is consulted only when the method is POST; otherwise the view body
skips straight to `redirect('quote_detail', pk=pk)`). -/
def quote_fetch_bio (method : String) (quote : Quote) (resp : WikiResponse) :
    BioPageResult :=
  if method == "POST" then
    match classify_bio_response resp with
    | .transportError e =>
      { quote := quote, notices := [.error ("Error fetching bio: " ++ e)],
        redirect_route := "quote_detail", http_called := true }
    | .noArticle =>
      { quote := quote,
        notices := [.error ("No Wikipedia article found for " ++ quote.author ++ ".")],
        redirect_route := "quote_detail", http_called := true }
    | .noSummary =>
      { quote := quote,
        notices := [.error ("Wikipedia article found but no summary available for "
            ++ quote.author ++ ".")],
        redirect_route := "quote_detail", http_called := true }
    | .ok summary =>
      { quote := { quote with author_bio_summary := some summary },
        notices := [.success ("Successfully fetched bio for " ++ quote.author ++ "!")],
        redirect_route := "quote_detail", http_called := true }
  else
    { quote := quote, notices := [], redirect_route := "quote_detail",
      http_called := false }

/-! ## Era report (views.py QuoteReportView.get) -/

/-- `Quote.objects.values('era').annotate(quote_count=Count('id'))
.order_by('-quote_count')`: one row per distinct `era` value (NULL included
as one group), each with the number of quotes having that era, sorted by
count descending (the relative order of equal counts is not specified by
the query; the embedding fixes one with a stable merge sort). -/
def getEraReport (quotes : List Quote) : List (Option String × Nat) :=
  let eras := (quotes.map Quote.era).dedup
  (eras.map (fun e => (e, (quotes.map Quote.era).count e))).insertionSort
    (fun a b => b.2 ≤ a.2)

/-! ## List views and their orderings (views.py) -/

/-- `QuoteViewSet.queryset = Quote.objects.all()`: no `order_by`, so the
API quote list is returned in storage order. -/
def quoteViewSet_list (quotes : List Quote) : List Quote := quotes

/-- Template `quote_list`: `Quote.objects.all().order_by('-date_created')`. -/
def quote_list_view (quotes : List Quote) : List Quote :=
  quotes.insertionSort (fun a b => b.date_created ≤ a.date_created)

/-- Template `home`: `Quote.objects.all().order_by('-date_created')[:5]`. -/
def home_recent_quotes (quotes : List Quote) : List Quote :=
  (quotes.insertionSort (fun a b => b.date_created ≤ a.date_created)).take 5

/-- `BookViewSet.queryset = Book.objects.all().order_by('title')`. -/
def bookViewSet_list (books : List Book) : List Book :=
  books.insertionSort (fun a b => a.title ≤ b.title)

/-- Template `book_list`: `Book.objects.all().order_by('title')`. -/
def book_list_view (books : List Book) : List Book :=
  books.insertionSort (fun a b => a.title ≤ b.title)

/-- `ReviewViewSet.get_queryset`: base queryset
`Review.objects.all().order_by('-created_at')`, then
`.filter(book_id=book_id)` when the `book_id` query parameter is present. -/
def reviewViewSet_list (reviews : List Review) (book_id : Option Nat) :
    List Review :=
  let qs := reviews.insertionSort (fun a b => b.created_at ≤ a.created_at)
  match book_id with
  | none => qs
  | some bid => qs.filter (fun r => r.book == bid)

/-- Template `book_detail`: `book.reviews.all().order_by('-created_at')`. -/
def book_detail_reviews (reviews : List Review) (bid : Nat) : List Review :=
  (reviews.filter (fun r => r.book == bid)).insertionSort
    (fun a b => b.created_at ≤ a.created_at)

/-- `BookSerializer.reviews = ReviewSerializer(many=True, read_only=True)`:
the nested list serializes `book.reviews.all()` — the default related
manager, with no `order_by` and no `Meta.ordering` on `Review` — so the
nested reviews come back in storage order. -/
def bookSerializer_reviews (reviews : List Review) (bid : Nat) : List Review :=
  reviews.filter (fun r => r.book == bid)

/-! ## API serializer validation (serializers.py) -/

/-- A JSON value supplied for the `rating` field of a review payload. -/
inductive RatingInput where
  | int (n : Int)
  | str (s : String)
deriving Repr, DecidableEq

/-- The `rating` field of `ReviewSerializer` (a `ModelSerializer` over
`Review`, `fields = ['id', 'book', 'reviewer_name', 'rating', 'body',
'created_at']`). The model field is `models.IntegerField(default=5)`:
because it has a default, DRF maps it to an `IntegerField(required=False)`
with no `min_value` / `max_value` validators. So: an absent field is
accepted and the model default 5 is stored; an integer is accepted as-is
with no range check; a string is coerced with integer parsing and rejected
only when it does not parse. The result is the rating that create/update
would store. -/
def reviewSerializer_rating (input : Option RatingInput) : Except String Int :=
  match input with
  | none => .ok 5
  | some (.int n) => .ok n
  | some (.str s) =>
    match pythonInt? s with
    | some n => .ok n
    | none => .error "A valid integer is required."

/-- The `era` field of `QuoteSerializer` (a `ModelSerializer` over `Quote`
with `fields = '__all__'`). The model field is `CharField(max_length=50,
blank=True, null=True)`, which DRF maps to `CharField(required=False,
allow_blank=True, allow_null=True, max_length=50)`. The result is the era
value a create would store: an absent field or an explicit null stores
NULL; any string of length at most 50 — including the empty string — is
stored verbatim. -/
def quoteSerializer_era (input : Option (Option String)) :
    Except String (Option String) :=
  match input with
  | none => .ok none
  | some none => .ok none
  | some (some s) =>
    if s.length ≤ 50 then .ok (some s)
    else .error "Ensure this field has no more than 50 characters."

/-- The `author_bio_summary` field of `QuoteSerializer`. The model field is
`TextField(blank=True, null=True)`, mapped by DRF to an optional,
blank-allowed, null-allowed CharField with no length bound: absent or null
stores NULL, any string — including the empty string — is stored verbatim. -/
def quoteSerializer_author_bio_summary (input : Option (Option String)) :
    Option String :=
  match input with
  | none => none
  | some v => v

/-! ## Template form handlers (views.py) -/

/-- Template `quote_create`. `era = request.POST.get('era', '')` and the row
is created with `era=era if era else None`, so a missing or empty era is
stored as NULL. `new_id` and `now` model the autoincrement id and
`auto_now_add` timestamp of the created row. -/
def quote_create (s : DBState) (method : String)
    (text author era : Option String) (new_id now : Nat) : PageResponse :=
  if method == "POST" then
    if truthy text && truthy author then
      let q : Quote :=
        { id := new_id, text := text.getD "", author := author.getD "",
          era := if (era.getD "") == "" then none else era,
          author_bio_summary := none, date_created := now }
      { state := { s with quotes := s.quotes ++ [q] },
        notices := [.success "Quote created successfully!"],
        result := .redirect "quote_detail" }
    else
      { state := s, notices := [.error "Please fill in all required fields."],
        result := .render "quote_form" }
  else
    { state := s, notices := [], result := .render "quote_form" }

/-- Template `quote_edit`. On POST the view assigns
`request.POST.get('text')`, `request.POST.get('author')` and
`request.POST.get('era', '') or None` to the row and saves unconditionally:
there is no validation. When `text` or `author` is absent, `None` is
written into a NOT NULL column and `quote.save()` raises `IntegrityError`,
which nothing catches; no row is persisted in that case. -/
def quote_edit (s : DBState) (pk : Nat) (method : String)
    (text author era : Option String) : PageResponse :=
  match findQuote s pk with
  | none => { state := s, notices := [], result := .http404 }
  | some quote =>
    if method == "POST" then
      match text, author with
      | some t, some a =>
        let q2 : Quote :=
          { quote with text := t, author := a,
                       era := if (era.getD "") == "" then none else era }
        { state := updateQuoteRow s pk q2,
          notices := [.success "Quote updated successfully!"],
          result := .redirect "quote_detail" }
      | _, _ => { state := s, notices := [], result := .uncaught "IntegrityError" }
    else
      { state := s, notices := [], result := .render "quote_form" }

/-- Template `quote_delete`: deletes only on POST; any other method
redirects to the quote's detail page with no effect. -/
def quote_delete (s : DBState) (pk : Nat) (method : String) : PageResponse :=
  match findQuote s pk with
  | none => { state := s, notices := [], result := .http404 }
  | some _ =>
    if method == "POST" then
      { state := { s with quotes := s.quotes.filter (fun q => !(q.id == pk)) },
        notices := [.success "Quote deleted successfully!"],
        result := .redirect "quote_list" }
    else
      { state := s, notices := [], result := .redirect "quote_detail" }

/-- Template `book_create`: requires truthy `title` and `author`; the cover
image, when uploaded, is attached with a second save. -/
def book_create (s : DBState) (method : String)
    (title author cover_image : Option String) (new_id : Nat) : PageResponse :=
  if method == "POST" then
    if truthy title && truthy author then
      let b : Book :=
        { id := new_id, title := title.getD "", author := author.getD "",
          cover_image := cover_image }
      { state := { s with books := s.books ++ [b] },
        notices := [.success "Book created successfully!"],
        result := .redirect "book_detail" }
    else
      { state := s, notices := [.error "Please fill in all required fields."],
        result := .render "book_form" }
  else
    { state := s, notices := [], result := .render "book_form" }

/-- Template `book_edit`. Like `quote_edit`, no validation: the view
assigns `request.POST.get('title')` and `request.POST.get('author')` and
saves; an absent field means `None` written to a NOT NULL column, so
`book.save()` raises `IntegrityError`. A newly uploaded cover replaces the
old one; otherwise the stored cover is untouched. -/
def book_edit (s : DBState) (pk : Nat) (method : String)
    (title author cover_image : Option String) : PageResponse :=
  match findBook s pk with
  | none => { state := s, notices := [], result := .http404 }
  | some book =>
    if method == "POST" then
      match title, author with
      | some t, some a =>
        let b2 : Book :=
          { book with title := t, author := a,
                      cover_image := match cover_image with
                                     | some c => some c
                                     | none => book.cover_image }
        { state := updateBookRow s pk b2,
          notices := [.success "Book updated successfully!"],
          result := .redirect "book_detail" }
      | _, _ => { state := s, notices := [], result := .uncaught "IntegrityError" }
    else
      { state := s, notices := [], result := .render "book_form" }

/-- Template `book_delete`: deletes only on POST. `Review.book` has
`on_delete=models.CASCADE` (models.py), so `book.delete()` also deletes
every review whose `book` reference equals the deleted book's id. -/
def book_delete (s : DBState) (pk : Nat) (method : String) : PageResponse :=
  match findBook s pk with
  | none => { state := s, notices := [], result := .http404 }
  | some _ =>
    if method == "POST" then
      { state := { s with books := s.books.filter (fun b => !(b.id == pk)),
                          reviews := s.reviews.filter (fun r => !(r.book == pk)) },
        notices := [.success "Book deleted successfully!"],
        result := .redirect "book_list" }
    else
      { state := s, notices := [], result := .redirect "book_detail" }

/-- Template `review_create(request, book_id)` after `get_object_or_404`
found the book. Requires truthy `reviewer_name`, `rating` and `body`; then
`int(rating)` (ValueError → "Invalid rating value."), then the range check
`1 <= rating <= 5`. -/
def review_create (s : DBState) (book : Book) (method : String)
    (reviewer_name rating body : Option String) (new_id now : Nat) :
    PageResponse :=
  if method == "POST" then
    if truthy reviewer_name && truthy rating && truthy body then
      match pythonInt? (rating.getD "") with
      | none =>
        { state := s, notices := [.error "Invalid rating value."],
          result := .render "review_form" }
      | some r =>
        if 1 ≤ r ∧ r ≤ 5 then
          let rev : Review :=
            { id := new_id, book := book.id,
              reviewer_name := reviewer_name.getD "", rating := r,
              body := body.getD "", created_at := now }
          { state := { s with reviews := s.reviews ++ [rev] },
            notices := [.success "Review created successfully!"],
            result := .redirect "book_detail" }
        else
          { state := s, notices := [.error "Rating must be between 1 and 5."],
            result := .render "review_form" }
    else
      { state := s, notices := [.error "Please fill in all required fields."],
        result := .render "review_form" }
  else
    { state := s, notices := [], result := .render "review_form" }

/-- Template `review_edit`. On POST the view runs `rating = int(rating)`
inside `try ... except ValueError`. When the `rating` key is absent,
`rating` is `None` and `int(None)` raises `TypeError`, which the
`except ValueError` clause does not catch — the exception escapes the
handler. A present but unparsable rating raises `ValueError`, caught and
reported. An in-range rating leads to `review.save()`, which persists the
already-assigned `reviewer_name` and `body` too; if either of those keys
was absent, `None` was assigned to a NOT NULL column and the save raises
`IntegrityError`. -/
def review_edit (s : DBState) (pk : Nat) (method : String)
    (reviewer_name rating body : Option String) : PageResponse :=
  match findReview s pk with
  | none => { state := s, notices := [], result := .http404 }
  | some review =>
    if method == "POST" then
      match rating with
      | none => { state := s, notices := [], result := .uncaught "TypeError" }
      | some rs =>
        match pythonInt? rs with
        | none =>
          { state := s, notices := [.error "Invalid rating value."],
            result := .render "review_form" }
        | some r =>
          if 1 ≤ r ∧ r ≤ 5 then
            match reviewer_name, body with
            | some rn, some b =>
              { state := updateReviewRow s pk
                  { review with reviewer_name := rn, rating := r, body := b },
                notices := [.success "Review updated successfully!"],
                result := .redirect "book_detail" }
            | _, _ =>
              { state := s, notices := [], result := .uncaught "IntegrityError" }
          else
            { state := s, notices := [.error "Rating must be between 1 and 5."],
              result := .render "review_form" }
    else
      { state := s, notices := [], result := .render "review_form" }

/-- Template `review_delete`: deletes only on POST; otherwise redirects to
the owning book's detail page with no effect. -/
def review_delete (s : DBState) (pk : Nat) (method : String) : PageResponse :=
  match findReview s pk with
  | none => { state := s, notices := [], result := .http404 }
  | some _ =>
    if method == "POST" then
      { state := { s with reviews := s.reviews.filter (fun r => !(r.id == pk)) },
        notices := [.success "Review deleted successfully!"],
        result := .redirect "book_detail" }
    else
      { state := s, notices := [], result := .redirect "book_detail" }

/-! ## Invariant on quote text fields -/

/-- The invariant claimed for a quote row: `era` and `author_bio_summary`
are never the empty string (absent is `none`, present is a non-empty
string). -/
def QuoteFieldOk (q : Quote) : Prop :=
  q.era ≠ some "" ∧ q.author_bio_summary ≠ some ""

/-! ## Concrete fixtures for witnesses and counterexamples -/

/-- A quote row used in concrete evaluations. -/
def qAda : Quote :=
  { id := 1, text := "The more I study, the more insatiable do I feel my genius for it to be.",
    author := "Ada Lovelace", era := some "Victorian",
    author_bio_summary := none, date_created := 10 }

/-- A Wikipedia page value with a valid extract. -/
def pageGood : WikiPage :=
  { missing := false, pageid := some 423, extract := some "Ada was a mathematician." }

/-- A well-formed Wikipedia body whose only page is `pageGood`. -/
def dataGood : WikiJson := { hasQuery := true, hasPages := true, pages := [pageGood] }

/-- A quote created earlier (smaller `date_created`). -/
def qOld : Quote :=
  { id := 1, text := "old", author := "A", era := none,
    author_bio_summary := none, date_created := 1 }

/-- A quote created later (larger `date_created`); stored after `qOld`. -/
def qNew : Quote :=
  { id := 2, text := "new", author := "B", era := none,
    author_bio_summary := none, date_created := 2 }

/-- Quotes with eras A, A, B and one NULL era: the worked example of the
era report. -/
def eraExampleQuotes : List Quote :=
  [ { id := 1, text := "q1", author := "x", era := some "A",
      author_bio_summary := none, date_created := 1 },
    { id := 2, text := "q2", author := "x", era := some "A",
      author_bio_summary := none, date_created := 2 },
    { id := 3, text := "q3", author := "x", era := some "B",
      author_bio_summary := none, date_created := 3 },
    { id := 4, text := "q4", author := "x", era := none,
      author_bio_summary := none, date_created := 4 } ]

/-- A book row used in concrete evaluations. -/
def bookFix : Book := { id := 7, title := "Frankenstein", author := "Mary Shelley",
                        cover_image := none }

/-- A second book row. -/
def bookFix2 : Book := { id := 8, title := "Emma", author := "Jane Austen",
                         cover_image := some "book_covers/emma.jpg" }

/-- A review of `bookFix`, created earlier. -/
def revOld : Review :=
  { id := 1, book := 7, reviewer_name := "Ann", rating := 4, body := "good",
    created_at := 1 }

/-- A review of `bookFix`, created later; stored after `revOld`. -/
def revNew : Review :=
  { id := 2, book := 7, reviewer_name := "Ben", rating := 5, body := "great",
    created_at := 2 }

/-- A review of `bookFix2`. -/
def revOther : Review :=
  { id := 3, book := 8, reviewer_name := "Cal", rating := 3, body := "fine",
    created_at := 3 }

/-- A concrete database state holding all the fixtures. -/
def sFix : DBState :=
  { quotes := [qOld, qNew], books := [bookFix, bookFix2],
    reviews := [revOld, revNew, revOther] }

/-! ## Helper lemmas -/

/-- A summary accepted by the bio-fetch checks is never the empty string
(the `not summary` branch rejects it). -/
theorem classify_ok_ne_empty {resp : WikiResponse} {s : String}
    (h : classify_bio_response resp = .ok s) : s ≠ "" := by
  intro h0
  subst h0
  cases resp with
  | failure e => simp [classify_bio_response] at h
  | success d =>
    rcases d with ⟨hq, hp, pages⟩
    cases hq <;> cases hp <;> cases pages
    · simp [classify_bio_response] at h
    · simp [classify_bio_response] at h
    · simp [classify_bio_response] at h
    · simp [classify_bio_response] at h
    · simp [classify_bio_response] at h
    · simp [classify_bio_response] at h
    · simp [classify_bio_response] at h
    · rename_i page rest
      by_cases hm : (page.missing || pageidOrDefault page == -1) = true
      · simp [classify_bio_response, hm] at h
      · by_cases hs : (extractOrDefault page == "" ||
            extractOrDefault page == "No summary found.") = true
        · simp [classify_bio_response, hm, hs] at h
        · simp [classify_bio_response, hm, hs] at h
          simp [h] at hs

/-- Reduction: a body without the `'query'` key classifies as no article. -/
theorem classify_success_noQuery (hp : Bool) (pages : List WikiPage) :
    classify_bio_response (.success ⟨false, hp, pages⟩) = .noArticle := rfl

/-- Reduction: a body without the `'pages'` key classifies as no article. -/
theorem classify_success_noPages (hq : Bool) (pages : List WikiPage) :
    classify_bio_response (.success ⟨hq, false, pages⟩) = .noArticle := by
  cases hq <;> rfl

/-- Reduction: a body with an empty pages dict classifies as no article. -/
theorem classify_success_emptyPages (hq hp : Bool) :
    classify_bio_response (.success ⟨hq, hp, []⟩) = .noArticle := by
  cases hq <;> cases hp <;> rfl

/-- Reduction: a well-formed body with a first page reduces to the
missing-page and extract checks on that page. -/
theorem classify_success_page (page : WikiPage) (rest : List WikiPage) :
    classify_bio_response (.success ⟨true, true, page :: rest⟩) =
      if page.missing || pageidOrDefault page == -1 then .noArticle
      else if extractOrDefault page == "" ||
          extractOrDefault page == "No summary found." then .noSummary
      else .ok (extractOrDefault page) := rfl

/-! ## Claim theorems -/

/-- C1: `QuoteViewSet.fetch_author_bio` classifies the Wikipedia response
with checks applied in this order: a raised request exception (transport or
timeout failure, or a non-success HTTP status raised by
`raise_for_status`) yields the 503 service-unavailable error whose message
carries the original error detail; a JSON body missing the nested
query/pages structure, or a first page marked missing (a `'missing'` key,
or page id -1 — also what `page.get('pageid', -1)` yields when the key is
absent), yields the 404 error saying no article was found for the author; a
page whose extract is absent, empty, or the literal "No summary found."
yields the 404 error saying an article was found but no summary is
available; otherwise the action succeeds with the extract string as the
summary. -/
theorem fetch_author_bio_classification (q : Quote) (resp : WikiResponse) :
    (∀ e, resp = .failure e →
      (fetch_author_bio q resp).1 =
        .err 503 ("External API error while fetching bio: " ++ e)) ∧
    (∀ d, resp = .success d →
      (d.hasQuery = false ∨ d.hasPages = false ∨ d.pages = []) →
      (fetch_author_bio q resp).1 =
        .err 404 ("No Wikipedia article found for " ++ q.author ++ ".")) ∧
    (∀ d page rest, resp = .success d → d = ⟨true, true, page :: rest⟩ →
      (page.missing = true ∨ pageidOrDefault page = -1) →
      (fetch_author_bio q resp).1 =
        .err 404 ("No Wikipedia article found for " ++ q.author ++ ".")) ∧
    (∀ d page rest, resp = .success d → d = ⟨true, true, page :: rest⟩ →
      page.missing = false → pageidOrDefault page ≠ -1 →
      (extractOrDefault page = "" ∨ extractOrDefault page = "No summary found.") →
      (fetch_author_bio q resp).1 =
        .err 404 ("Wikipedia article found but no summary available for "
          ++ q.author ++ ".")) ∧
    (∀ d page rest, resp = .success d → d = ⟨true, true, page :: rest⟩ →
      page.missing = false → pageidOrDefault page ≠ -1 →
      extractOrDefault page ≠ "" → extractOrDefault page ≠ "No summary found." →
      (fetch_author_bio q resp).1 =
        .ok ("Successfully fetched and saved bio for " ++ q.author ++ ".")
          (extractOrDefault page)) := by
  refine ⟨?_, ?_, ?_, ?_, ?_⟩
  · rintro e rfl
    simp [fetch_author_bio, classify_bio_response]
  · rintro d rfl hcond
    rcases d with ⟨hq, hp, pages⟩
    rcases hcond with h | h | h
    · simp only at h
      subst h
      simp [fetch_author_bio, classify_success_noQuery]
    · simp only at h
      subst h
      simp [fetch_author_bio, classify_success_noPages]
    · simp only at h
      subst h
      simp [fetch_author_bio, classify_success_emptyPages]
  · rintro d page rest rfl rfl hmiss
    have hm : (page.missing || pageidOrDefault page == -1) = true := by
      rcases hmiss with h | h <;> simp [h]
    simp [fetch_author_bio, classify_success_page, hm]
  · rintro d page rest rfl rfl hmiss hpid hext
    have hm : (page.missing || pageidOrDefault page == -1) = false := by
      simp [hmiss, hpid]
    have hs : (extractOrDefault page == "" ||
        extractOrDefault page == "No summary found.") = true := by
      rcases hext with h | h <;> simp [h]
    simp [fetch_author_bio, classify_success_page, hm, hs]
  · rintro d page rest rfl rfl hmiss hpid hne hns
    have hm : (page.missing || pageidOrDefault page == -1) = false := by
      simp [hmiss, hpid]
    have hs : (extractOrDefault page == "" ||
        extractOrDefault page == "No summary found.") = false := by
      simp [hne, hns]
    simp [fetch_author_bio, classify_success_page, hm, hs]

/-- Witness: at the fixture response, the success clause of the
classification theorem applies and the action returns the extract. -/
theorem fetch_author_bio_classification_witness :
    (fetch_author_bio qAda (.success dataGood)).1 =
      .ok ("Successfully fetched and saved bio for " ++ qAda.author ++ ".")
        (extractOrDefault pageGood) :=
  (fetch_author_bio_classification qAda (.success dataGood)).2.2.2.2
    dataGood pageGood [] rfl (by decide) (by decide) (by decide)
    (by decide) (by decide)

/-- C2: when the bio fetch fails (any error branch), both the API action
and the template view leave the quote row — in particular
`author_bio_summary` — unchanged; when it succeeds with summary `s`, both
set `author_bio_summary` to exactly `s`, overwriting any prior value, in
the same operation that returns the success result. -/
theorem bio_fetch_summary_side_effect (q : Quote) (resp : WikiResponse) :
    ((∀ s, classify_bio_response resp ≠ .ok s) →
      (fetch_author_bio q resp).2 = q ∧
      (quote_fetch_bio "POST" q resp).quote = q) ∧
    (∀ s, classify_bio_response resp = .ok s →
      (fetch_author_bio q resp).2 = { q with author_bio_summary := some s } ∧
      (quote_fetch_bio "POST" q resp).quote =
        { q with author_bio_summary := some s }) := by
  constructor
  · intro hfail
    cases hc : classify_bio_response resp with
    | transportError e => simp [fetch_author_bio, quote_fetch_bio, hc]
    | noArticle => simp [fetch_author_bio, quote_fetch_bio, hc]
    | noSummary => simp [fetch_author_bio, quote_fetch_bio, hc]
    | ok s => exact absurd hc (hfail s)
  · intro s hc
    simp [fetch_author_bio, quote_fetch_bio, hc]

/-- Witness: at the fixture response the fetch succeeds and both views
store the extract into `author_bio_summary`. -/
theorem bio_fetch_summary_side_effect_witness :
    (fetch_author_bio qAda (.success dataGood)).2 =
      { qAda with author_bio_summary := some (extractOrDefault pageGood) } ∧
    (quote_fetch_bio "POST" qAda (.success dataGood)).quote =
      { qAda with author_bio_summary := some (extractOrDefault pageGood) } :=
  (bio_fetch_summary_side_effect qAda (.success dataGood)).2
    (extractOrDefault pageGood) (by decide)

/-- C10: a non-POST request to the fetch-bio page route issues no outbound
HTTP call, leaves the quote row unchanged, records no notice, and redirects
to the quote's detail page. -/
theorem quote_fetch_bio_requires_post (m : String) (q : Quote)
    (resp : WikiResponse) (h : m ≠ "POST") :
    quote_fetch_bio m q resp =
      { quote := q, notices := [], redirect_route := "quote_detail",
        http_called := false } := by
  have hm : (m == "POST") = false := by
    simpa using h
  simp [quote_fetch_bio, hm]

/-- Witness: a GET to the fetch-bio route is a no-op redirect. -/
theorem quote_fetch_bio_requires_post_witness :
    quote_fetch_bio "GET" qAda (.success dataGood) =
      { quote := qAda, notices := [], redirect_route := "quote_detail",
        http_called := false } :=
  quote_fetch_bio_requires_post "GET" qAda (.success dataGood) (by decide)

/-- C3: the era report has one `(era, quote_count)` pair per distinct era
value present among the stored quotes (the NULL era included as its own
group), each count is the number of quotes with that era, the sequence is
sorted by count descending, and on the worked example with eras A, A, B and
one NULL it returns exactly the three groups with A (count 2) first. -/
theorem getEraReport_spec (quotes : List Quote) :
    ((getEraReport quotes).map Prod.fst).Perm (quotes.map Quote.era).dedup ∧
    (∀ p ∈ getEraReport quotes, p.2 = (quotes.map Quote.era).count p.1) ∧
    List.Sorted (fun a b : Option String × Nat => b.2 ≤ a.2)
      (getEraReport quotes) ∧
    getEraReport eraExampleQuotes = [(some "A", 2), (some "B", 1), (none, 1)] := by
  have hperm : (getEraReport quotes).Perm
      (((quotes.map Quote.era).dedup).map
        (fun e => (e, (quotes.map Quote.era).count e))) :=
    List.perm_insertionSort _ _
  refine ⟨?_, ?_, ?_, ?_⟩
  · have h := hperm.map Prod.fst
    have h2 : (Prod.fst ∘ fun e : Option String =>
        (e, (quotes.map Quote.era).count e)) = id := rfl
    simpa [List.map_map, h2] using h
  · intro p hp
    have hmem : p ∈ ((quotes.map Quote.era).dedup).map
        (fun e => (e, (quotes.map Quote.era).count e)) := hperm.mem_iff.mp hp
    obtain ⟨e, _, rfl⟩ := List.mem_map.mp hmem
    rfl
  · haveI : IsTotal (Option String × Nat) (fun a b => b.2 ≤ a.2) :=
      ⟨fun a b => (Nat.le_total a.2 b.2).symm⟩
    haveI : IsTrans (Option String × Nat) (fun a b => b.2 ≤ a.2) :=
      ⟨fun _ _ _ hab hbc => Nat.le_trans hbc hab⟩
    exact List.sorted_insertionSort _ _
  · decide

/-- Witness: in the worked example the count reported for era A is the
number of quotes with era A. -/
theorem getEraReport_spec_witness :
    ((some "A" : Option String), 2).2 =
      (eraExampleQuotes.map Quote.era).count ((some "A" : Option String), 2).1 :=
  (getEraReport_spec eraExampleQuotes).2.1 (some "A", 2) (by decide)

/-- Any review stored after a `review_create` POST was either already
stored or has a rating in [1,5]. -/
theorem review_create_rating_range (s : DBState) (book : Book)
    (rn rat b : Option String) (nid now : Nat) :
    ∀ rev ∈ (review_create s book "POST" rn rat b nid now).state.reviews,
      rev ∈ s.reviews ∨ (1 ≤ rev.rating ∧ rev.rating ≤ 5) := by
  intro rev hrev
  unfold review_create at hrev
  by_cases ht : (truthy rn && truthy rat && truthy b) = true
  · cases hp : pythonInt? (rat.getD "") with
    | none =>
      simp [ht, hp] at hrev
      exact Or.inl hrev
    | some r =>
      by_cases hr : (1 ≤ r ∧ r ≤ 5)
      · simp [ht, hp, hr] at hrev
        rcases hrev with h | h
        · exact Or.inl h
        · subst h
          exact Or.inr ⟨hr.1, hr.2⟩
      · simp [ht, hp, hr] at hrev
        exact Or.inl hrev
  · simp [ht] at hrev
    exact Or.inl hrev

/-- A `review_create` POST that records an error notice does not change the
stored state. -/
theorem review_create_error_no_mutation (s : DBState) (book : Book)
    (rn rat b : Option String) (nid now : Nat) :
    (review_create s book "POST" rn rat b nid now).notices.any
        Notice.isError = true →
      (review_create s book "POST" rn rat b nid now).state = s := by
  intro herr
  unfold review_create at herr ⊢
  by_cases ht : (truthy rn && truthy rat && truthy b) = true
  · cases hp : pythonInt? (rat.getD "") with
    | none => simp [ht, hp]
    | some r =>
      by_cases hr : (1 ≤ r ∧ r ≤ 5)
      · simp [ht, hp, hr, Notice.isError] at herr
      · simp [ht, hp, hr]
  · simp [ht]

/-- Any review stored after a `review_edit` POST was either already stored
or has a rating in [1,5]. -/
theorem review_edit_rating_range (s : DBState) (pk : Nat)
    (rn rat b : Option String) :
    ∀ rev ∈ (review_edit s pk "POST" rn rat b).state.reviews,
      rev ∈ s.reviews ∨ (1 ≤ rev.rating ∧ rev.rating ≤ 5) := by
  intro rev hrev
  unfold review_edit at hrev
  cases hf : findReview s pk with
  | none =>
    simp [hf] at hrev
    exact Or.inl hrev
  | some review =>
    cases rat with
    | none =>
      simp [hf] at hrev
      exact Or.inl hrev
    | some rs =>
      cases hp : pythonInt? rs with
      | none =>
        simp [hf, hp] at hrev
        exact Or.inl hrev
      | some r =>
        by_cases hr : (1 ≤ r ∧ r ≤ 5)
        · cases rn with
          | none =>
            simp [hf, hp, hr] at hrev
            exact Or.inl hrev
          | some rn2 =>
            cases b with
            | none =>
              simp [hf, hp, hr] at hrev
              exact Or.inl hrev
            | some b2 =>
              simp [hf, hp, hr, updateReviewRow] at hrev
              obtain ⟨x, hx, hrevx⟩ := hrev
              by_cases hid : x.id = pk
              · rw [if_pos hid] at hrevx
                subst hrevx
                exact Or.inr ⟨hr.1, hr.2⟩
              · rw [if_neg hid] at hrevx
                subst hrevx
                exact Or.inl hx
        · simp [hf, hp, hr] at hrev
          exact Or.inl hrev

/-- A `review_edit` POST that records an error notice does not change the
stored state. -/
theorem review_edit_error_no_mutation (s : DBState) (pk : Nat)
    (rn rat b : Option String) :
    (review_edit s pk "POST" rn rat b).notices.any Notice.isError = true →
      (review_edit s pk "POST" rn rat b).state = s := by
  intro herr
  unfold review_edit at herr ⊢
  cases hf : findReview s pk with
  | none => simp [hf]
  | some review =>
    cases rat with
    | none => simp [hf]
    | some rs =>
      cases hp : pythonInt? rs with
      | none => simp [hf, hp]
      | some r =>
        by_cases hr : (1 ≤ r ∧ r ≤ 5)
        · cases rn with
          | none => simp [hf, hp, hr]
          | some rn2 =>
            cases b with
            | none => simp [hf, hp, hr]
            | some b2 => simp [hf, hp, hr, Notice.isError] at herr
        · simp [hf, hp, hr]

/-- C4 counterexample: the API layer accepts a rating of 6, which is
outside [1,5], and also accepts an absent rating (storing the model default
5) — so it is false that through both layers an explicit rating is required
and out-of-range values are rejected. -/
theorem reviewSerializer_rating_not_validated :
    reviewSerializer_rating (some (.int 6)) = .ok 6 ∧
    reviewSerializer_rating none = .ok 5 ∧
    ¬((1 : Int) ≤ 6 ∧ (6 : Int) ≤ 5) := by
  refine ⟨rfl, rfl, ?_⟩
  decide

/-- C4 amended: the form layer (`review_create`, and `review_edit` when a
rating is supplied) accepts only integer ratings in [1,5] and rejects other
submissions without mutating stored state; the API serializer rejects only
non-numeric strings — it accepts any integer whether in range or not, and
an absent rating is accepted with the model default 5. -/
theorem rating_validation_amended (s : DBState) (book : Book) (pk : Nat)
    (rn rat b : Option String) (nid now : Nat) :
    (∀ rev ∈ (review_create s book "POST" rn rat b nid now).state.reviews,
      rev ∈ s.reviews ∨ (1 ≤ rev.rating ∧ rev.rating ≤ 5)) ∧
    ((review_create s book "POST" rn rat b nid now).notices.any
        Notice.isError = true →
      (review_create s book "POST" rn rat b nid now).state = s) ∧
    (∀ rev ∈ (review_edit s pk "POST" rn rat b).state.reviews,
      rev ∈ s.reviews ∨ (1 ≤ rev.rating ∧ rev.rating ≤ 5)) ∧
    ((review_edit s pk "POST" rn rat b).notices.any Notice.isError = true →
      (review_edit s pk "POST" rn rat b).state = s) ∧
    (∀ n : Int, reviewSerializer_rating (some (.int n)) = .ok n) ∧
    reviewSerializer_rating none = .ok 5 ∧
    (∀ str : String, pythonInt? str = none →
      reviewSerializer_rating (some (.str str)) =
        .error "A valid integer is required.") :=
  ⟨review_create_rating_range s book rn rat b nid now,
   review_create_error_no_mutation s book rn rat b nid now,
   review_edit_rating_range s pk rn rat b,
   review_edit_error_no_mutation s pk rn rat b,
   fun _ => rfl, rfl,
   fun str h => by simp [reviewSerializer_rating, h]⟩

/-- Witness: a form submission with rating 9 is rejected with an error
notice and leaves the fixture state unchanged. -/
theorem rating_validation_amended_witness :
    (review_create sFix bookFix "POST" (some "Ann") (some "9") (some "fine")
        9 9).state = sFix :=
  (rating_validation_amended sFix bookFix 1 (some "Ann") (some "9")
    (some "fine") 9 9).2.1 (by decide)

/-- C5: deleting a book (POST) removes exactly the reviews whose `book`
reference equals the deleted book's id and no other review, and if every
stored review referenced an existing book before the delete, the same holds
after it — no orphaned review remains. -/
theorem book_delete_cascade (s : DBState) (pk : Nat) (b : Book)
    (hb : findBook s pk = some b) :
    (book_delete s pk "POST").state.reviews
      = s.reviews.filter (fun r => !(r.book == pk)) ∧
    (∀ r ∈ s.reviews, r.book ≠ pk →
      r ∈ (book_delete s pk "POST").state.reviews) ∧
    (∀ r ∈ (book_delete s pk "POST").state.reviews,
      r ∈ s.reviews ∧ r.book ≠ pk) ∧
    ((∀ r ∈ s.reviews, ∃ bk ∈ s.books, bk.id = r.book) →
      ∀ r ∈ (book_delete s pk "POST").state.reviews,
        ∃ bk ∈ (book_delete s pk "POST").state.books, bk.id = r.book) := by
  have hred : (book_delete s pk "POST").state =
      { s with books := s.books.filter (fun b2 => !(b2.id == pk)),
               reviews := s.reviews.filter (fun r => !(r.book == pk)) } := by
    unfold book_delete
    rw [hb]
    rfl
  refine ⟨?_, ?_, ?_, ?_⟩
  · rw [hred]
  · intro r hr hne
    rw [hred]
    simp only [List.mem_filter]
    exact ⟨hr, by simpa using hne⟩
  · intro r hr
    rw [hred] at hr
    simp only [List.mem_filter] at hr
    exact ⟨hr.1, by simpa using hr.2⟩
  · intro hinv r hr
    rw [hred] at hr ⊢
    simp only [List.mem_filter] at hr
    obtain ⟨bk, hbk, hid⟩ := hinv r hr.1
    refine ⟨bk, List.mem_filter.mpr ⟨hbk, ?_⟩, hid⟩
    have : r.book ≠ pk := by simpa using hr.2
    simp [hid, this]

/-- Witness: deleting the fixture book 7 leaves exactly the reviews not
referencing book 7. -/
theorem book_delete_cascade_witness :
    (book_delete sFix 7 "POST").state.reviews
      = sFix.reviews.filter (fun r => !(r.book == 7)) :=
  (book_delete_cascade sFix 7 bookFix (by decide)).1

/-- C9: each server-rendered delete view (quote, book, review) deletes only
on a POST request: with any other method and an existing target, the state
is unchanged and the view redirects to the detail page; with POST, the
target row is removed (for a book together with its reviews, handled by
C5's cascade theorem). -/
theorem delete_views_require_post (s : DBState) (pk : Nat) (m : String) :
    (m ≠ "POST" →
      ((findQuote s pk).isSome →
        quote_delete s pk m =
          { state := s, notices := [], result := .redirect "quote_detail" }) ∧
      ((findBook s pk).isSome →
        book_delete s pk m =
          { state := s, notices := [], result := .redirect "book_detail" }) ∧
      ((findReview s pk).isSome →
        review_delete s pk m =
          { state := s, notices := [], result := .redirect "book_detail" })) ∧
    ((findQuote s pk).isSome →
      (quote_delete s pk "POST").state.quotes =
        s.quotes.filter (fun q => !(q.id == pk))) ∧
    ((findBook s pk).isSome →
      (book_delete s pk "POST").state.books =
        s.books.filter (fun b => !(b.id == pk))) ∧
    ((findReview s pk).isSome →
      (review_delete s pk "POST").state.reviews =
        s.reviews.filter (fun r => !(r.id == pk))) := by
  refine ⟨fun hm => ⟨?_, ?_, ?_⟩, ?_, ?_, ?_⟩
  · intro hq
    obtain ⟨q, hq⟩ := Option.isSome_iff_exists.mp hq
    have hmb : (m == "POST") = false := by simpa using hm
    unfold quote_delete
    rw [hq]
    simp [hmb]
  · intro hb
    obtain ⟨b, hb⟩ := Option.isSome_iff_exists.mp hb
    have hmb : (m == "POST") = false := by simpa using hm
    unfold book_delete
    rw [hb]
    simp [hmb]
  · intro hr
    obtain ⟨r, hr⟩ := Option.isSome_iff_exists.mp hr
    have hmb : (m == "POST") = false := by simpa using hm
    unfold review_delete
    rw [hr]
    simp [hmb]
  · intro hq
    obtain ⟨q, hq⟩ := Option.isSome_iff_exists.mp hq
    unfold quote_delete
    rw [hq]
    rfl
  · intro hb
    obtain ⟨b, hb⟩ := Option.isSome_iff_exists.mp hb
    unfold book_delete
    rw [hb]
    rfl
  · intro hr
    obtain ⟨r, hr⟩ := Option.isSome_iff_exists.mp hr
    unfold review_delete
    rw [hr]
    rfl

/-- Witness: a GET to the quote delete route of the fixture state is a
no-op redirect. -/
theorem delete_views_require_post_witness :
    quote_delete sFix 1 "GET" =
      { state := sFix, notices := [], result := .redirect "quote_detail" } :=
  ((delete_views_require_post sFix 1 "GET").1 (by decide)).1 (by decide)

/-- Sorting quotes with `order_by('-date_created')` yields a list sorted by
`date_created` descending. -/
theorem sorted_insertionSort_date (l : List Quote) :
    List.Sorted (fun a b : Quote => b.date_created ≤ a.date_created)
      (l.insertionSort (fun a b => b.date_created ≤ a.date_created)) := by
  haveI : IsTotal Quote (fun a b => b.date_created ≤ a.date_created) :=
    ⟨fun a b => (Nat.le_total a.date_created b.date_created).symm⟩
  haveI : IsTrans Quote (fun a b => b.date_created ≤ a.date_created) :=
    ⟨fun _ _ _ hab hbc => Nat.le_trans hbc hab⟩
  exact List.sorted_insertionSort _ _

/-- Sorting reviews with `order_by('-created_at')` yields a list sorted by
`created_at` descending. -/
theorem sorted_insertionSort_created (l : List Review) :
    List.Sorted (fun a b : Review => b.created_at ≤ a.created_at)
      (l.insertionSort (fun a b => b.created_at ≤ a.created_at)) := by
  haveI : IsTotal Review (fun a b => b.created_at ≤ a.created_at) :=
    ⟨fun a b => (Nat.le_total a.created_at b.created_at).symm⟩
  haveI : IsTrans Review (fun a b => b.created_at ≤ a.created_at) :=
    ⟨fun _ _ _ hab hbc => Nat.le_trans hbc hab⟩
  exact List.sorted_insertionSort _ _

/-- Sorting books with `order_by('title')` yields a list sorted by `title`
ascending. -/
theorem sorted_insertionSort_title (l : List Book) :
    List.Sorted (fun a b : Book => a.title ≤ b.title)
      (l.insertionSort (fun a b => a.title ≤ b.title)) := by
  haveI : IsTotal Book (fun a b : Book => a.title ≤ b.title) :=
    ⟨fun a b => le_total a.title b.title⟩
  haveI : IsTrans Book (fun a b : Book => a.title ≤ b.title) :=
    ⟨fun _ _ _ hab hbc => le_trans hab hbc⟩
  exact List.sorted_insertionSort _ _

/-- C6 counterexample: with two quotes stored in creation order, the API
quote list (`QuoteViewSet`, whose queryset has no `order_by`) returns them
in storage order — oldest first — so it is not ordered by `date_created`
descending; likewise a book's nested reviews in the API serializer are
returned in storage order, oldest first. -/
theorem list_orderings_counterexample :
    quoteViewSet_list [qOld, qNew] = [qOld, qNew] ∧
    ¬ List.Sorted (fun a b : Quote => b.date_created ≤ a.date_created)
      (quoteViewSet_list [qOld, qNew]) ∧
    bookSerializer_reviews [revOld, revNew] 7 = [revOld, revNew] ∧
    ¬ List.Sorted (fun a b : Review => b.created_at ≤ a.created_at)
      (bookSerializer_reviews [revOld, revNew] 7) := by
  refine ⟨rfl, ?_, by decide, ?_⟩
  · intro h
    have := List.rel_of_sorted_cons h qNew (by decide)
    simp [qOld, qNew] at this
  · intro h
    have := List.rel_of_sorted_cons h revNew (by decide)
    simp [revOld, revNew] at this

/-- C6 amended: the server-rendered quote lists are ordered by
`date_created` descending, but the API quote list applies no ordering and
returns storage order; book lists are ordered by `title` ascending in both
layers; the review list view (unfiltered and `book_id`-filtered) and the
server-rendered book detail order reviews by `created_at` descending, but
the API's nested reviews under a book are returned in storage order. -/
theorem list_orderings_amended (quotes : List Quote) (books : List Book)
    (reviews : List Review) (bid : Nat) :
    quoteViewSet_list quotes = quotes ∧
    List.Sorted (fun a b : Quote => b.date_created ≤ a.date_created)
      (quote_list_view quotes) ∧
    (quote_list_view quotes).Perm quotes ∧
    List.Sorted (fun a b : Quote => b.date_created ≤ a.date_created)
      (home_recent_quotes quotes) ∧
    List.Sorted (fun a b : Book => a.title ≤ b.title)
      (bookViewSet_list books) ∧
    (bookViewSet_list books).Perm books ∧
    book_list_view books = bookViewSet_list books ∧
    List.Sorted (fun a b : Review => b.created_at ≤ a.created_at)
      (reviewViewSet_list reviews none) ∧
    (reviewViewSet_list reviews none).Perm reviews ∧
    List.Sorted (fun a b : Review => b.created_at ≤ a.created_at)
      (reviewViewSet_list reviews (some bid)) ∧
    (∀ r ∈ reviewViewSet_list reviews (some bid), r.book = bid) ∧
    List.Sorted (fun a b : Review => b.created_at ≤ a.created_at)
      (book_detail_reviews reviews bid) ∧
    (book_detail_reviews reviews bid).Perm
      (reviews.filter (fun r => r.book == bid)) ∧
    bookSerializer_reviews reviews bid =
      reviews.filter (fun r => r.book == bid) := by
  refine ⟨rfl, sorted_insertionSort_date quotes, List.perm_insertionSort _ _,
    ?_, sorted_insertionSort_title books, List.perm_insertionSort _ _, rfl,
    sorted_insertionSort_created reviews, List.perm_insertionSort _ _,
    ?_, ?_, sorted_insertionSort_created _, List.perm_insertionSort _ _, rfl⟩
  · exact List.Pairwise.sublist (List.take_sublist 5 _)
      (sorted_insertionSort_date quotes)
  · exact List.Pairwise.sublist (List.filter_sublist _)
      (sorted_insertionSort_created reviews)
  · intro r hr
    have := List.mem_filter.mp hr
    simpa using this.2

/-- Witness: in the fixture state, every review in the `book_id=7`-filtered
API review list references book 7. -/
theorem list_orderings_amended_witness :
    revOld.book = 7 :=
  (list_orderings_amended [] [] [revOld, revNew, revOther] 7).2.2.2.2.2.2.2.2.2.2.1
    revOld (by decide)

/-- The era normalization of the form views (`era if era else None`, and
`request.POST.get('era', '') or None`) never yields the empty string. -/
theorem normalized_era_ne_empty (era : Option String) :
    (if era.getD "" = "" then none else era) ≠ some "" := by
  cases era with
  | none => simp
  | some e =>
    by_cases he : e = ""
    · simp [he]
    · simp [he]

/-- C7 counterexample: the API serializer accepts and stores the empty
string verbatim for both `era` and `author_bio_summary` (the model fields
have `blank=True`, so DRF maps them with `allow_blank=True` and performs no
empty-to-null normalization) — so a Quote with an empty-string era is
reachable through the API create/update operations. -/
theorem quote_api_stores_empty_string :
    quoteSerializer_era (some (some "")) = .ok (some "") ∧
    quoteSerializer_author_bio_summary (some (some "")) = some "" ∧
    (some "" : Option String) ≠ none := by
  refine ⟨rfl, rfl, by decide⟩

/-- C7 amended: quotes reachable through the form layer and the bio-fetch
operations never carry an empty-string `era` or `author_bio_summary` (the
form views normalize an empty era to null, and a fetched summary is
non-empty by the extract check); the API serializer, however, stores empty
strings verbatim for both fields. -/
theorem quote_fields_never_empty_amended (s : DBState) :
    (∀ m text author era nid now,
      (∀ q ∈ s.quotes, QuoteFieldOk q) →
      ∀ q ∈ (quote_create s m text author era nid now).state.quotes,
        QuoteFieldOk q) ∧
    (∀ pk m text author era,
      (∀ q ∈ s.quotes, QuoteFieldOk q) →
      ∀ q ∈ (quote_edit s pk m text author era).state.quotes,
        QuoteFieldOk q) ∧
    (∀ (q : Quote) m resp, QuoteFieldOk q →
      QuoteFieldOk (quote_fetch_bio m q resp).quote) ∧
    (∀ (q : Quote) resp, QuoteFieldOk q →
      QuoteFieldOk (fetch_author_bio q resp).2) ∧
    quoteSerializer_era (some (some "")) = .ok (some "") ∧
    quoteSerializer_author_bio_summary (some (some "")) = some "" := by
  refine ⟨?_, ?_, ?_, ?_, rfl, rfl⟩
  · intro m text author era nid now hall q hq
    unfold quote_create at hq
    by_cases hm : (m == "POST") = true
    · by_cases ht : (truthy text && truthy author) = true
      · simp [hm, ht] at hq
        rcases hq with h | h
        · exact hall q h
        · subst h
          exact ⟨normalized_era_ne_empty era, by simp⟩
      · simp [hm, ht] at hq
        exact hall q hq
    · simp [hm] at hq
      exact hall q hq
  · intro pk m text author era hall q hq
    unfold quote_edit at hq
    cases hf : findQuote s pk with
    | none =>
      simp [hf] at hq
      exact hall q hq
    | some quote =>
      by_cases hm : (m == "POST") = true
      · cases text with
        | none =>
          simp [hf, hm] at hq
          exact hall q hq
        | some t =>
          cases author with
          | none =>
            simp [hf, hm] at hq
            exact hall q hq
          | some a =>
            simp [hf, hm, updateQuoteRow] at hq
            obtain ⟨x, hx, hqx⟩ := hq
            by_cases hid : x.id = pk
            · rw [if_pos hid] at hqx
              subst hqx
              refine ⟨normalized_era_ne_empty era, ?_⟩
              have hfq := List.find?_some hf
              have : quote ∈ s.quotes := List.mem_of_find?_eq_some hf
              exact (hall quote this).2
            · rw [if_neg hid] at hqx
              subst hqx
              exact hall x hx
      · simp [hf, hm] at hq
        exact hall q hq
  · intro q m resp hok
    unfold quote_fetch_bio
    by_cases hm : (m == "POST") = true
    · cases hc : classify_bio_response resp with
      | transportError e => simp [hm, hc]; exact hok
      | noArticle => simp [hm, hc]; exact hok
      | noSummary => simp [hm, hc]; exact hok
      | ok summ =>
        simp [hm, hc]
        exact ⟨hok.1, by simpa using classify_ok_ne_empty hc⟩
    · simp [hm]
      exact hok
  · intro q resp hok
    unfold fetch_author_bio
    cases hc : classify_bio_response resp with
    | transportError e => simp [hc]; exact hok
    | noArticle => simp [hc]; exact hok
    | noSummary => simp [hc]; exact hok
    | ok summ =>
      simp [hc]
      exact ⟨hok.1, by simpa using classify_ok_ne_empty hc⟩

/-- Witness: fetching a bio for the fixture quote keeps its fields free of
empty-string sentinels. -/
theorem quote_fields_never_empty_amended_witness :
    QuoteFieldOk (quote_fetch_bio "POST" qOld (.success dataGood)).quote :=
  (quote_fields_never_empty_amended sFix).2.2.1 qOld "POST"
    (.success dataGood) ⟨by decide, by decide⟩

/-- C8 counterexample: a `review_edit` POST on an existing review with the
`rating` field absent — a missing required field — raises an uncaught
`TypeError` (`int(None)` is not caught by `except ValueError`) instead of
redirecting or re-rendering with a transient error notice. -/
theorem review_edit_missing_rating_raises :
    review_edit sFix 1 "POST" (some "Ann") none (some "updated") =
      { state := sFix, notices := [], result := .uncaught "TypeError" } := rfl

/-- C8 amended: the create handlers re-render with a transient error notice
on a missing required field, and `review_create` / `review_edit` do so on a
present but non-numeric or out-of-range rating, all without mutating state;
but the edit handlers do not have the claimed behaviour in general:
`review_edit` with an absent rating raises an uncaught `TypeError`, and
`quote_edit` / `book_edit` perform no validation at all and never record an
error notice. -/
theorem form_validation_notices_amended (s : DBState) (book : Book)
    (pk : Nat) (f1 f2 f3 : Option String) (nid now : Nat) :
    ((truthy f1 && truthy f2) = false →
      quote_create s "POST" f1 f2 f3 nid now =
        { state := s, notices := [.error "Please fill in all required fields."],
          result := .render "quote_form" }) ∧
    ((truthy f1 && truthy f2) = false →
      book_create s "POST" f1 f2 f3 nid =
        { state := s, notices := [.error "Please fill in all required fields."],
          result := .render "book_form" }) ∧
    ((truthy f1 && truthy f2 && truthy f3) = false →
      review_create s book "POST" f1 f2 f3 nid now =
        { state := s, notices := [.error "Please fill in all required fields."],
          result := .render "review_form" }) ∧
    (∀ rs, (truthy f1 && truthy (some rs) && truthy f3) = true →
      pythonInt? rs = none →
      review_create s book "POST" f1 (some rs) f3 nid now =
        { state := s, notices := [.error "Invalid rating value."],
          result := .render "review_form" }) ∧
    (∀ rs r, (truthy f1 && truthy (some rs) && truthy f3) = true →
      pythonInt? rs = some r → ¬(1 ≤ r ∧ r ≤ 5) →
      review_create s book "POST" f1 (some rs) f3 nid now =
        { state := s, notices := [.error "Rating must be between 1 and 5."],
          result := .render "review_form" }) ∧
    (∀ rv rs, findReview s pk = some rv → pythonInt? rs = none →
      review_edit s pk "POST" f1 (some rs) f3 =
        { state := s, notices := [.error "Invalid rating value."],
          result := .render "review_form" }) ∧
    (∀ rv rs r, findReview s pk = some rv → pythonInt? rs = some r →
      ¬(1 ≤ r ∧ r ≤ 5) →
      review_edit s pk "POST" f1 (some rs) f3 =
        { state := s, notices := [.error "Rating must be between 1 and 5."],
          result := .render "review_form" }) ∧
    (∀ rv, findReview s pk = some rv →
      review_edit s pk "POST" f1 none f3 =
        { state := s, notices := [], result := .uncaught "TypeError" }) ∧
    ((quote_edit s pk "POST" f1 f2 f3).notices.all
      (fun n => !(Notice.isError n)) = true) ∧
    ((book_edit s pk "POST" f1 f2 f3).notices.all
      (fun n => !(Notice.isError n)) = true) := by
  refine ⟨?_, ?_, ?_, ?_, ?_, ?_, ?_, ?_, ?_, ?_⟩
  · intro ht
    unfold quote_create
    simp [ht]
  · intro ht
    unfold book_create
    simp [ht]
  · intro ht
    unfold review_create
    simp [ht]
  · intro rs ht hp
    unfold review_create
    simp [ht, hp]
  · intro rs r ht hp hr
    unfold review_create
    simp [ht, hp, hr]
  · intro rv rs hf hp
    unfold review_edit
    rw [hf]
    simp [hp]
  · intro rv rs r hf hp hr
    unfold review_edit
    rw [hf]
    simp [hp, hr]
  · intro rv hf
    unfold review_edit
    rw [hf]
    rfl
  · unfold quote_edit
    cases hf : findQuote s pk with
    | none => simp
    | some quote =>
      cases f1 with
      | none => simp
      | some t =>
        cases f2 with
        | none => simp
        | some a => simp [Notice.isError]
  · unfold book_edit
    cases hf : findBook s pk with
    | none => simp
    | some bk =>
      cases f1 with
      | none => simp
      | some t =>
        cases f2 with
        | none => simp
        | some a => simp [Notice.isError]

/-- Witness: a quote create submission with a missing text field re-renders
the form with an error notice and leaves the fixture state unchanged. -/
theorem form_validation_notices_amended_witness :
    quote_create sFix "POST" none (some "a") none 9 9 =
      { state := sFix, notices := [.error "Please fill in all required fields."],
        result := .render "quote_form" } :=
  (form_validation_notices_amended sFix bookFix 1 none (some "a") none 9 9).1
    (by decide)

end ReviewQuotes
